import Mathlib

/-!
Shallow embedding of `src/utils/networkMath.ts`: the two sizing calculators
`calculateClos` and `calculateFullMesh` operating on `NetworkConfig` and
producing `TopologyMetrics`.  JavaScript real arithmetic is embedded in `ℚ`,
integer quantities in `ℕ`/`ℤ`; `Math.floor`/`Math.ceil` on non-negative
integer quotients become natural division and ceiling division.
-/

/-- Input record, mirroring `NetworkConfig` in `src/types.ts`. -/
structure NetworkConfig where
  numUsers : ℕ
  radix : ℕ
  powerPerSwitch : ℚ
  cablePowerClos : ℚ
  cablePowerMesh : ℚ
  meshFabricRatio : ℚ
  meshOneHopTraffic : ℚ
  deriving DecidableEq, Repr

/-- The `switchConfig` object literal: every field optional, mirroring
`src/types.ts`. -/
structure SwitchConfig where
  leafs : Option ℤ
  spines : Option ℤ
  core : Option ℤ
  meshSwitches : Option ℤ
  userPortsPerSwitch : Option ℤ
  deriving DecidableEq, Repr

/-- The empty object literal `{}` used for infeasible results. -/
def emptySwitchConfig : SwitchConfig :=
  { leafs := none, spines := none, core := none, meshSwitches := none,
    userPortsPerSwitch := none }

/-- Output record, mirroring `TopologyMetrics` in `src/types.ts`. -/
structure TopologyMetrics where
  name : String
  totalSwitches : ℤ
  totalCables : ℤ
  avgHops : ℚ
  maxHops : ℤ
  totalPower : ℚ
  userCapacity : ℤ
  details : String
  possible : Bool
  switchConfig : SwitchConfig
  deriving DecidableEq, Repr

/-- `Math.ceil(n / d)` for natural `n` and positive natural `d`
(and `0` when `d = 0`, a case the calculators guard against). -/
def ceilDivNat (n d : ℕ) : ℕ := (n + d - 1) / d

/-- `parseFloat(x.toFixed(2))`: rounding to two decimal places. -/
def round2 (q : ℚ) : ℚ := ((round (q * 100) : ℤ) : ℚ) / 100

/-- The shared shape of every infeasible return in `networkMath.ts`:
all numeric fields zero, empty `switchConfig`, a reason in `details`. -/
def infeasibleMetrics (nm d : String) : TopologyMetrics :=
  { name := nm, totalSwitches := 0, totalCables := 0, avgHops := 0,
    maxHops := 0, totalPower := 0, userCapacity := 0, details := d,
    possible := false, switchConfig := emptySwitchConfig }

/-- `userPortsPerLeaf = Math.floor(radix / 2)`. -/
def closUserPortsPerLeaf (config : NetworkConfig) : ℕ := config.radix / 2

/-- `numLeafs = Math.ceil(numUsers / userPortsPerLeaf)`. -/
def closNumLeafs (config : NetworkConfig) : ℕ :=
  ceilDivNat config.numUsers (closUserPortsPerLeaf config)

/-- `maxUsers3Tier = (radix / 2) * (radix / 2) * radix`, with JavaScript
real division (not integer division). -/
def maxUsers3Tier (config : NetworkConfig) : ℚ :=
  ((config.radix : ℚ) / 2) * ((config.radix : ℚ) / 2) * (config.radix : ℚ)

/-- The 3-tier average-hop estimate (before rounding): traffic to the
`numLeafs - 1` remote leaves, split between 2-hop intra-pod and 4-hop
inter-pod paths; `0` when `numLeafs ≤ 1`.  Mirrors the `tiers === 3`
branch of the hop computation in `calculateClos`. -/
def closAvgHops3 (leavesPerPod numLeafs : ℕ) : ℚ :=
  if 1 < numLeafs then
    let totalRemoteLeaves := numLeafs - 1
    let intraPodLeaves := min leavesPerPod numLeafs - 1
    let interPodLeaves := numLeafs - leavesPerPod
    ((intraPodLeaves : ℚ) / (totalRemoteLeaves : ℚ)) * 2 +
      ((interPodLeaves : ℚ) / (totalRemoteLeaves : ℚ)) * 4
  else 0

/-- `calculateClos` from `src/utils/networkMath.ts`. -/
def calculateClos (config : NetworkConfig) : TopologyMetrics :=
  let userPortsPerLeaf := closUserPortsPerLeaf config
  if userPortsPerLeaf = 0 then
    infeasibleMetrics "Folded Clos" "Radix too small."
  else
    let numLeafs := closNumLeafs config
    let totalUserCapacity := numLeafs * userPortsPerLeaf
    if numLeafs ≤ config.radix then
      let totalUplinks := numLeafs * userPortsPerLeaf
      let numSpines := ceilDivNat totalUplinks config.radix
      let totalSwitches := numLeafs + numSpines
      let fabricCables := totalUplinks
      { name := "Folded Clos (2-Tier)",
        totalSwitches := (totalSwitches : ℤ),
        totalCables := (fabricCables : ℤ),
        avgHops := round2 2,
        maxHops := 2,
        totalPower := (totalSwitches : ℚ) * config.powerPerSwitch +
          (fabricCables : ℚ) * config.cablePowerClos * 2,
        userCapacity := (totalUserCapacity : ℤ),
        details := "2-Tier: " ++ toString numLeafs ++ " Leafs, " ++
          toString numSpines ++ " Spines",
        possible := true,
        switchConfig := { leafs := some (numLeafs : ℤ),
                          spines := some (numSpines : ℤ), core := none,
                          meshSwitches := none,
                          userPortsPerSwitch := some (userPortsPerLeaf : ℤ) } }
    else
      let numAgg := numLeafs
      let totalAggUplinks := numAgg * (config.radix / 2)
      let numCore := ceilDivNat totalAggUplinks config.radix
      if maxUsers3Tier config < (config.numUsers : ℚ) then
        infeasibleMetrics "Folded Clos (3-Tier)"
          ("Requires >3 Tiers. Max users " ++ toString (maxUsers3Tier config)
            ++ ".")
      else
        let totalSwitches := numLeafs + numAgg + numCore
        let cablesT1T2 := numLeafs * userPortsPerLeaf
        let cablesT2T3 := totalAggUplinks
        let fabricCables := cablesT1T2 + cablesT2T3
        { name := "Folded Clos (3-Tier)",
          totalSwitches := (totalSwitches : ℤ),
          totalCables := (fabricCables : ℤ),
          avgHops := round2 (closAvgHops3 (config.radix / 2) numLeafs),
          maxHops := 4,
          totalPower := (totalSwitches : ℚ) * config.powerPerSwitch +
            (fabricCables : ℚ) * config.cablePowerClos * 2,
          userCapacity := (totalUserCapacity : ℤ),
          details := "3-Tier: " ++ toString numLeafs ++ " Leafs, " ++
            toString numAgg ++ " Agg, " ++ toString numCore ++ " Core",
          possible := true,
          switchConfig := { leafs := some (numLeafs : ℤ),
                            spines := some (numAgg : ℤ),
                            core := some (numCore : ℤ),
                            meshSwitches := none,
                            userPortsPerSwitch := some (userPortsPerLeaf : ℤ) } }

/-- `targetUsers = requiredUserPorts || numUsers`: JavaScript truthiness
makes `0` (a falsy value) fall back to `numUsers`, exactly like omitting
the argument. -/
def meshTarget (config : NetworkConfig) (requiredUserPorts : Option ℕ) : ℕ :=
  match requiredUserPorts with
  | some r => if r = 0 then config.numUsers else r
  | none => config.numUsers

/-- `minFabricPorts = Math.ceil((meshFabricRatio * radix) / (1 + meshFabricRatio))`. -/
def minFabricPorts (config : NetworkConfig) : ℤ :=
  ⌈config.meshFabricRatio * (config.radix : ℚ) / (1 + config.meshFabricRatio)⌉

/-- `linksPerPeer = Math.ceil(minFabricPorts / (s - 1))`, raised to `1`
when below `1`. -/
def linksPerPeer (config : NetworkConfig) (s : ℕ) : ℤ :=
  max 1 ⌈(minFabricPorts config : ℚ) / ((s : ℚ) - 1)⌉

/-- `actualFabricPorts = linksPerPeer * (s - 1)`. -/
def actualFabricPorts (config : NetworkConfig) (s : ℕ) : ℤ :=
  linksPerPeer config s * ((s : ℤ) - 1)

/-- `actualUserPorts = radix - actualFabricPorts`. -/
def actualUserPorts (config : NetworkConfig) (s : ℕ) : ℤ :=
  (config.radix : ℤ) - actualFabricPorts config s

/-- The body of the `for (let s = 2; s <= 500; s++)` search loop in
`calculateFullMesh`, one constructor of fuel per iteration.  Returns the
switch count `s` accepted by the loop, `none` when the loop breaks on
`linksPerPeer === 1` with no user ports left or when the bound runs out. -/
def meshLoopAux (config : NetworkConfig) (target : ℕ) : ℕ → ℕ → Option ℕ
  | 0, _ => none
  | fuel + 1, s =>
    if actualUserPorts config s ≤ 0 then
      if linksPerPeer config s = 1 then none
      else meshLoopAux config target fuel (s + 1)
    else if (target : ℤ) ≤ (s : ℤ) * actualUserPorts config s then some s
    else meshLoopAux config target fuel (s + 1)

/-- The full search `s = 2 .. 500` (499 iterations). -/
def meshSearch (config : NetworkConfig) (target : ℕ) : Option ℕ :=
  meshLoopAux config target 499 2

/-- The feasible result record built in the body of the search loop of
`calculateFullMesh` once switch count `s` is accepted. -/
def meshMetricsAt (config : NetworkConfig) (s : ℕ) : TopologyMetrics :=
  let l := linksPerPeer config s
  let fabricCables : ℤ := (s : ℤ) * ((s : ℤ) - 1) / 2 * l
  let oneHopRatio : ℚ := config.meshOneHopTraffic / 100
  let avgHops : ℚ := oneHopRatio * 1 + (1 - oneHopRatio) * 2
  { name := "Full Mesh",
    totalSwitches := (s : ℤ),
    totalCables := fabricCables,
    avgHops := round2 avgHops,
    maxHops := 2,
    totalPower := (s : ℚ) * config.powerPerSwitch +
      (fabricCables : ℚ) * config.cablePowerMesh * 2,
    userCapacity := (s : ℤ) * actualUserPorts config s,
    details := toString s ++ " Switches, " ++ toString l ++
      "x LAG. (U:" ++ toString (actualUserPorts config s) ++ "/F:" ++
      toString (actualFabricPorts config s) ++ ")",
    possible := true,
    switchConfig := { leafs := none, spines := none, core := none,
                      meshSwitches := some (s : ℤ),
                      userPortsPerSwitch :=
                        some (actualUserPorts config s) } }

/-- The infeasible result record returned when the mesh search fails. -/
def meshInfeasible (config : NetworkConfig) (targetUsers : ℕ) : TopologyMetrics :=
  infeasibleMetrics "Full Mesh"
    ("Cannot support " ++ toString targetUsers ++ " users with Radix " ++
      toString config.radix ++ " & Ratio " ++
      toString config.meshFabricRatio ++ ".")

/-- `calculateFullMesh` from `src/utils/networkMath.ts`; the optional
`requiredUserPorts` argument is `Option ℕ`. -/
def calculateFullMesh (config : NetworkConfig)
    (requiredUserPorts : Option ℕ) : TopologyMetrics :=
  let targetUsers := meshTarget config requiredUserPorts
  match meshSearch config targetUsers with
  | none => meshInfeasible config targetUsers
  | some s => meshMetricsAt config s

/-- `numSpines = Math.ceil(totalUplinks / radix)` in the 2-tier branch. -/
def closNumSpines (config : NetworkConfig) : ℕ :=
  ceilDivNat (closNumLeafs config * closUserPortsPerLeaf config) config.radix

/-- `numCore = Math.ceil(totalAggUplinks / radix)` in the 3-tier branch. -/
def closNumCore (config : NetworkConfig) : ℕ :=
  ceilDivNat (closNumLeafs config * (config.radix / 2)) config.radix

/-- The acceptance test of the mesh search loop at switch count `s`:
positive user ports and enough total capacity. -/
def meshAccepts (config : NetworkConfig) (target : ℕ) (s : ℕ) : Prop :=
  0 < actualUserPorts config s ∧
    (target : ℤ) ≤ (s : ℤ) * actualUserPorts config s

instance (config : NetworkConfig) (target s : ℕ) :
    Decidable (meshAccepts config target s) := by
  unfold meshAccepts; infer_instance

/-- The spec's tier-boundary test vector: `radix = 64`, `numUsers = 1024`. -/
def cfgClos64 : NetworkConfig :=
  { numUsers := 1024, radix := 64, powerPerSwitch := 0, cablePowerClos := 0,
    cablePowerMesh := 0, meshFabricRatio := 1, meshOneHopTraffic := 0 }

/-- The spec's 3-tier-trigger test vector: `radix = 16`, `numUsers = 2048`. -/
def cfgClos16 : NetworkConfig :=
  { numUsers := 2048, radix := 16, powerPerSwitch := 0, cablePowerClos := 0,
    cablePowerMesh := 0, meshFabricRatio := 1, meshOneHopTraffic := 0 }

/-- A feasible 3-tier configuration: `radix = 16`, `numUsers = 1000`
(below the `1024` ceiling, with `numLeafs = 125 > 16`). -/
def cfgClos16ok : NetworkConfig :=
  { numUsers := 1000, radix := 16, powerPerSwitch := 0, cablePowerClos := 0,
    cablePowerMesh := 0, meshFabricRatio := 1, meshOneHopTraffic := 0 }

/-- A `radix = 1` configuration (infeasible-radix test vector). -/
def cfgClos1 : NetworkConfig :=
  { numUsers := 10, radix := 1, powerPerSwitch := 0, cablePowerClos := 0,
    cablePowerMesh := 0, meshFabricRatio := 1, meshOneHopTraffic := 0 }

lemma ceilDivNat_mono {n n' : ℕ} (d : ℕ) (h : n ≤ n') :
    ceilDivNat n d ≤ ceilDivNat n' d := by
  unfold ceilDivNat
  exact Nat.div_le_div_right (by omega)

lemma le_ceilDivNat_mul {n d : ℕ} (hd : 1 ≤ d) : n ≤ ceilDivNat n d * d := by
  unfold ceilDivNat
  rw [Nat.mul_comm]
  have h1 := Nat.div_add_mod (n + d - 1) d
  have h2 := Nat.mod_lt (n + d - 1) (show 0 < d by omega)
  omega

lemma ceilDivNat_pos {n d : ℕ} (hn : 1 ≤ n) (hd : 1 ≤ d) :
    1 ≤ ceilDivNat n d := by
  by_contra h
  have h0 : ceilDivNat n d = 0 := by omega
  have := le_ceilDivNat_mul (n := n) hd
  rw [h0] at this
  omega

lemma calculateClos_radixSmall (config : NetworkConfig)
    (hu : closUserPortsPerLeaf config = 0) :
    calculateClos config = infeasibleMetrics "Folded Clos" "Radix too small." := by
  simp [calculateClos, hu]

lemma calculateClos_2tier (config : NetworkConfig)
    (hu : closUserPortsPerLeaf config ≠ 0)
    (hL : closNumLeafs config ≤ config.radix) :
    calculateClos config =
      { name := "Folded Clos (2-Tier)",
        totalSwitches := ((closNumLeafs config + closNumSpines config : ℕ) : ℤ),
        totalCables :=
          ((closNumLeafs config * closUserPortsPerLeaf config : ℕ) : ℤ),
        avgHops := round2 2,
        maxHops := 2,
        totalPower :=
          ((closNumLeafs config + closNumSpines config : ℕ) : ℚ) *
              config.powerPerSwitch +
            ((closNumLeafs config * closUserPortsPerLeaf config : ℕ) : ℚ) *
              config.cablePowerClos * 2,
        userCapacity :=
          ((closNumLeafs config * closUserPortsPerLeaf config : ℕ) : ℤ),
        details := "2-Tier: " ++ toString (closNumLeafs config) ++ " Leafs, " ++
          toString (closNumSpines config) ++ " Spines",
        possible := true,
        switchConfig := { leafs := some ((closNumLeafs config : ℕ) : ℤ),
                          spines := some ((closNumSpines config : ℕ) : ℤ),
                          core := none,
                          meshSwitches := none,
                          userPortsPerSwitch :=
                            some ((closUserPortsPerLeaf config : ℕ) : ℤ) } } := by
  simp [calculateClos, closNumSpines, hu, hL]

lemma calculateClos_3tierOver (config : NetworkConfig)
    (hu : closUserPortsPerLeaf config ≠ 0)
    (hL : config.radix < closNumLeafs config)
    (hover : maxUsers3Tier config < (config.numUsers : ℚ)) :
    calculateClos config =
      infeasibleMetrics "Folded Clos (3-Tier)"
        ("Requires >3 Tiers. Max users " ++ toString (maxUsers3Tier config)
          ++ ".") := by
  simp [calculateClos, hu, Nat.not_le.mpr hL, hover]

lemma calculateClos_3tier (config : NetworkConfig)
    (hu : closUserPortsPerLeaf config ≠ 0)
    (hL : config.radix < closNumLeafs config)
    (hok : ¬ maxUsers3Tier config < (config.numUsers : ℚ)) :
    calculateClos config =
      { name := "Folded Clos (3-Tier)",
        totalSwitches :=
          ((closNumLeafs config + closNumLeafs config + closNumCore config : ℕ) : ℤ),
        totalCables :=
          ((closNumLeafs config * closUserPortsPerLeaf config +
            closNumLeafs config * (config.radix / 2) : ℕ) : ℤ),
        avgHops := round2 (closAvgHops3 (config.radix / 2) (closNumLeafs config)),
        maxHops := 4,
        totalPower :=
          ((closNumLeafs config + closNumLeafs config + closNumCore config : ℕ) : ℚ) *
              config.powerPerSwitch +
            ((closNumLeafs config * closUserPortsPerLeaf config +
              closNumLeafs config * (config.radix / 2) : ℕ) : ℚ) *
              config.cablePowerClos * 2,
        userCapacity :=
          ((closNumLeafs config * closUserPortsPerLeaf config : ℕ) : ℤ),
        details := "3-Tier: " ++ toString (closNumLeafs config) ++ " Leafs, " ++
          toString (closNumLeafs config) ++ " Agg, " ++
          toString (closNumCore config) ++ " Core",
        possible := true,
        switchConfig := { leafs := some ((closNumLeafs config : ℕ) : ℤ),
                          spines := some ((closNumLeafs config : ℕ) : ℤ),
                          core := some ((closNumCore config : ℕ) : ℤ),
                          meshSwitches := none,
                          userPortsPerSwitch :=
                            some ((closUserPortsPerLeaf config : ℕ) : ℤ) } } := by
  simp [calculateClos, closNumCore, hu, Nat.not_le.mpr hL, hok]

lemma meshLoopAux_some (config : NetworkConfig) (target : ℕ) :
    ∀ fuel s S, meshLoopAux config target fuel s = some S →
      s ≤ S ∧ S < s + fuel ∧ meshAccepts config target S ∧
        ∀ t, s ≤ t → t < S → ¬ meshAccepts config target t := by
  intro fuel
  induction fuel with
  | zero => intro s S h; simp [meshLoopAux] at h
  | succ n ih =>
    intro s S h
    simp only [meshLoopAux] at h
    by_cases h1 : actualUserPorts config s ≤ 0
    · rw [if_pos h1] at h
      by_cases h2 : linksPerPeer config s = 1
      · rw [if_pos h2] at h; exact Option.noConfusion h
      · rw [if_neg h2] at h
        obtain ⟨hsS, hlt, hacc, hmin⟩ := ih (s + 1) S h
        refine ⟨by omega, by omega, hacc, ?_⟩
        intro t hst htS
        rcases eq_or_lt_of_le hst with rfl | h'
        · exact fun hc => absurd hc.1 (not_lt.mpr h1)
        · exact hmin t h' htS
    · rw [if_neg h1] at h
      by_cases h3 : (target : ℤ) ≤ (s : ℤ) * actualUserPorts config s
      · rw [if_pos h3] at h
        injection h with hEq
        subst hEq
        exact ⟨le_refl _, by omega, ⟨not_le.mp h1, h3⟩,
          fun t hst htS => absurd (lt_of_le_of_lt hst htS) (lt_irrefl _)⟩
      · rw [if_neg h3] at h
        obtain ⟨hsS, hlt, hacc, hmin⟩ := ih (s + 1) S h
        refine ⟨by omega, by omega, hacc, ?_⟩
        intro t hst htS
        rcases eq_or_lt_of_le hst with rfl | h'
        · exact fun hc => h3 hc.2
        · exact hmin t h' htS

lemma meshSearch_some (config : NetworkConfig) (target S : ℕ)
    (h : meshSearch config target = some S) :
    2 ≤ S ∧ S ≤ 500 ∧ meshAccepts config target S ∧
      ∀ t, 2 ≤ t → t < S → ¬ meshAccepts config target t := by
  obtain ⟨h1, h2, h3, h4⟩ := meshLoopAux_some config target 499 2 S h
  exact ⟨h1, by omega, h3, h4⟩

lemma calculateFullMesh_some (config : NetworkConfig)
    (requiredUserPorts : Option ℕ) (s : ℕ)
    (h : meshSearch config (meshTarget config requiredUserPorts) = some s) :
    calculateFullMesh config requiredUserPorts = meshMetricsAt config s := by
  unfold calculateFullMesh
  dsimp only
  rw [h]

lemma calculateFullMesh_none (config : NetworkConfig)
    (requiredUserPorts : Option ℕ)
    (h : meshSearch config (meshTarget config requiredUserPorts) = none) :
    calculateFullMesh config requiredUserPorts =
      meshInfeasible config (meshTarget config requiredUserPorts) := by
  unfold calculateFullMesh
  dsimp only
  rw [h]

lemma calculateFullMesh_possible (config : NetworkConfig)
    (requiredUserPorts : Option ℕ)
    (hp : (calculateFullMesh config requiredUserPorts).possible = true) :
    ∃ s, meshSearch config (meshTarget config requiredUserPorts) = some s := by
  cases h : meshSearch config (meshTarget config requiredUserPorts) with
  | none =>
    rw [calculateFullMesh_none config requiredUserPorts h] at hp
    simp [meshInfeasible, infeasibleMetrics] at hp
  | some s => exact ⟨s, rfl⟩

lemma minFabricPorts_le_actualFabricPorts (config : NetworkConfig) (s : ℕ)
    (hs : 2 ≤ s) : minFabricPorts config ≤ actualFabricPorts config s := by
  unfold actualFabricPorts
  have hs1 : (0 : ℚ) < (s : ℚ) - 1 := by
    have h2 : (2 : ℚ) ≤ (s : ℚ) := by exact_mod_cast hs
    linarith
  have hl : (⌈(minFabricPorts config : ℚ) / ((s : ℚ) - 1)⌉ : ℤ) ≤
      linksPerPeer config s := le_max_right _ _
  have hceil : (minFabricPorts config : ℚ) / ((s : ℚ) - 1) ≤
      (⌈(minFabricPorts config : ℚ) / ((s : ℚ) - 1)⌉ : ℚ) := Int.le_ceil _
  have hlq : (minFabricPorts config : ℚ) / ((s : ℚ) - 1) ≤
      (linksPerPeer config s : ℚ) := le_trans hceil (by exact_mod_cast hl)
  have hmul := (div_le_iff₀ hs1).mp hlq
  have hcast : ((linksPerPeer config s * ((s : ℤ) - 1) : ℤ) : ℚ) =
      (linksPerPeer config s : ℚ) * ((s : ℚ) - 1) := by push_cast; ring
  rw [← hcast] at hmul
  exact_mod_cast hmul

lemma meshFabricRatio_le_ratio (config : NetworkConfig)
    (hr : 0 < config.meshFabricRatio) (s : ℕ) (hs : 2 ≤ s)
    (hU : 0 < actualUserPorts config s) :
    config.meshFabricRatio ≤
      (actualFabricPorts config s : ℚ) / (actualUserPorts config s : ℚ) := by
  have h1r : (0 : ℚ) < 1 + config.meshFabricRatio := by linarith
  have hm : config.meshFabricRatio * (config.radix : ℚ) /
      (1 + config.meshFabricRatio) ≤ (minFabricPorts config : ℚ) := by
    unfold minFabricPorts
    exact Int.le_ceil _
  have hF : (minFabricPorts config : ℚ) ≤ (actualFabricPorts config s : ℚ) := by
    exact_mod_cast minFabricPorts_le_actualFabricPorts config s hs
  have hRF := le_trans hm hF
  have hmul := (div_le_iff₀ h1r).mp hRF
  have hUq : (0 : ℚ) < (actualUserPorts config s : ℚ) := by exact_mod_cast hU
  rw [le_div_iff₀ hUq]
  have hRsum : (config.radix : ℚ) =
      (actualFabricPorts config s : ℚ) + (actualUserPorts config s : ℚ) := by
    unfold actualUserPorts
    push_cast
    ring
  nlinarith [hmul, hRsum]

lemma append_ne_empty (s t : String) (h : s ≠ "") : s ++ t ≠ "" := by
  intro he
  apply h
  have hlen : s.length + t.length = 0 := by
    simpa [String.length_append] using congrArg String.length he
  have hz : s.length = 0 := by omega
  cases s with
  | mk data =>
    cases data with
    | nil => rfl
    | cons c cs => simp [String.length] at hz

lemma closAvgHops3_eq (u L : ℕ) (huL : u ≤ L) (hL : 1 < L) :
    closAvgHops3 u L =
      (((u - 1 : ℕ) : ℚ) * 2 + ((L - u : ℕ) : ℚ) * 4) / ((L : ℚ) - 1) := by
  have hL1 : ((L - 1 : ℕ) : ℚ) = (L : ℚ) - 1 := by
    push_cast [Nat.cast_sub (by omega : 1 ≤ L)]
    ring
  have hden : ((L : ℚ) - 1) ≠ 0 := by
    have h2 : (2 : ℚ) ≤ (L : ℚ) := by exact_mod_cast hL
    linarith
  simp only [closAvgHops3, if_pos hL, min_eq_left huL]
  rw [hL1]
  field_simp

lemma round2_two : round2 2 = 2 := by
  unfold round2
  norm_num

/-- C1: for every configuration with integer `radix ≥ 2` and
`meshFabricRatio > 0` and every resolved capacity target, if
`calculateFullMesh` reports `possible = true` then its `totalSwitches` is
the smallest `S ∈ [2, 500]` whose `actualUserPorts` (computed from
`minFabricPorts` and `linksPerPeer` exactly as in the source) is positive
with `S * actualUserPorts` at least the target — no smaller `S` in range
satisfies both — and `userCapacity = S * actualUserPorts`. -/
theorem spec_C1 (config : NetworkConfig) (requiredUserPorts : Option ℕ)
    (hradix : 2 ≤ config.radix) (hratio : 0 < config.meshFabricRatio)
    (hp : (calculateFullMesh config requiredUserPorts).possible = true) :
    ∃ S : ℕ,
      (calculateFullMesh config requiredUserPorts).totalSwitches = (S : ℤ) ∧
      2 ≤ S ∧ S ≤ 500 ∧
      meshAccepts config (meshTarget config requiredUserPorts) S ∧
      (∀ t, 2 ≤ t → t < S →
        ¬ meshAccepts config (meshTarget config requiredUserPorts) t) ∧
      (calculateFullMesh config requiredUserPorts).userCapacity =
        (S : ℤ) * actualUserPorts config S := by
  obtain ⟨s, hse⟩ := calculateFullMesh_possible config requiredUserPorts hp
  obtain ⟨h2, h500, hacc, hmin⟩ :=
    meshSearch_some config (meshTarget config requiredUserPorts) s hse
  refine ⟨s, ?_, h2, h500, hacc, hmin, ?_⟩
  · rw [calculateFullMesh_some config requiredUserPorts s hse]
    rfl
  · rw [calculateFullMesh_some config requiredUserPorts s hse]
    rfl

theorem spec_C1_witness :
    2 ≤ cfgClos64.radix ∧ 0 < cfgClos64.meshFabricRatio ∧
    (calculateFullMesh cfgClos64 (some 1024)).possible = true ∧
    ∃ S : ℕ,
      (calculateFullMesh cfgClos64 (some 1024)).totalSwitches = (S : ℤ) ∧
      2 ≤ S ∧ S ≤ 500 ∧
      meshAccepts cfgClos64 (meshTarget cfgClos64 (some 1024)) S ∧
      (∀ t, 2 ≤ t → t < S →
        ¬ meshAccepts cfgClos64 (meshTarget cfgClos64 (some 1024)) t) ∧
      (calculateFullMesh cfgClos64 (some 1024)).userCapacity =
        (S : ℤ) * actualUserPorts cfgClos64 S :=
  ⟨by decide, by decide, of_decide_eq_true (by with_unfolding_all rfl),
    spec_C1 cfgClos64 (some 1024) (by decide) (by decide)
      (of_decide_eq_true (by with_unfolding_all rfl))⟩

/-- C2: for every feasible mesh result, with `U` the reported
`userPortsPerSwitch` and `radix − U` the fabric ports, the fabric-to-user
ratio is at least `meshFabricRatio`. -/
theorem spec_C2 (config : NetworkConfig) (requiredUserPorts : Option ℕ)
    (hratio : 0 < config.meshFabricRatio)
    (hp : (calculateFullMesh config requiredUserPorts).possible = true)
    (U : ℤ)
    (hU : (calculateFullMesh config requiredUserPorts).switchConfig.userPortsPerSwitch
      = some U) :
    config.meshFabricRatio ≤ ((config.radix : ℚ) - (U : ℚ)) / (U : ℚ) := by
  obtain ⟨s, hse⟩ := calculateFullMesh_possible config requiredUserPorts hp
  obtain ⟨h2, _, hacc, _⟩ :=
    meshSearch_some config (meshTarget config requiredUserPorts) s hse
  rw [calculateFullMesh_some config requiredUserPorts s hse] at hU
  have hUeq : U = actualUserPorts config s := by
    have : some (actualUserPorts config s) = some U := hU
    exact (Option.some.inj this).symm
  have hF : (config.radix : ℚ) - ((actualUserPorts config s : ℤ) : ℚ) =
      ((actualFabricPorts config s : ℤ) : ℚ) := by
    unfold actualUserPorts
    push_cast
    ring
  rw [hUeq, hF]
  exact meshFabricRatio_le_ratio config hratio s h2 hacc.1

theorem spec_C2_witness :
    0 < cfgClos64.meshFabricRatio ∧
    (calculateFullMesh cfgClos64 (some 1024)).possible = true ∧
    (calculateFullMesh cfgClos64 (some 1024)).switchConfig.userPortsPerSwitch
      = some 32 ∧
    cfgClos64.meshFabricRatio ≤
      ((cfgClos64.radix : ℚ) - ((32 : ℤ) : ℚ)) / ((32 : ℤ) : ℚ) :=
  ⟨by decide, of_decide_eq_true (by with_unfolding_all rfl),
    of_decide_eq_true (by with_unfolding_all rfl),
    spec_C2 cfgClos64 (some 1024) (by decide)
      (of_decide_eq_true (by with_unfolding_all rfl)) 32
      (of_decide_eq_true (by with_unfolding_all rfl))⟩

/-- C9: passing `requiredUserPorts = 0` is indistinguishable from omitting
the argument — the truthiness default makes the target `numUsers`, so a
zero target capacity cannot be requested. -/
theorem spec_C9 (config : NetworkConfig) :
    meshTarget config (some 0) = config.numUsers ∧
    calculateFullMesh config (some 0) = calculateFullMesh config none :=
  ⟨rfl, rfl⟩

/-- C10: whenever `calculateClos` takes the 3-tier branch
(`userPortsPerLeaf ≠ 0` and `numLeafs > radix`), `radix ≥ 2` holds and
`numLeafs ≥ 3`, so the `numLeafs == 1` fallback is unreachable
(`1 < numLeafs`) and the divisor `numLeafs − 1` of the hop model is
positive. -/
theorem spec_C10 (config : NetworkConfig)
    (hu : closUserPortsPerLeaf config ≠ 0)
    (hL : config.radix < closNumLeafs config) :
    2 ≤ config.radix ∧ 3 ≤ closNumLeafs config ∧ 1 < closNumLeafs config ∧
      0 < closNumLeafs config - 1 := by
  have h2 : 2 ≤ config.radix := by
    by_contra h
    exact hu (by
      show config.radix / 2 = 0
      omega)
  exact ⟨h2, by omega, by omega, by omega⟩

theorem spec_C10_witness :
    closUserPortsPerLeaf cfgClos16ok ≠ 0 ∧
    cfgClos16ok.radix < closNumLeafs cfgClos16ok ∧
    (2 ≤ cfgClos16ok.radix ∧ 3 ≤ closNumLeafs cfgClos16ok ∧
      1 < closNumLeafs cfgClos16ok ∧ 0 < closNumLeafs cfgClos16ok - 1) :=
  ⟨by decide, by decide, spec_C10 cfgClos16ok (by decide) (by decide)⟩

/-- C3: for every configuration with `numUsers ≥ 1` and `radix ≥ 2`, every
feasible `calculateClos` result has `userCapacity ≥ numUsers`,
`totalSwitches > 0` and `totalCables ≥ 0`, and every feasible
`calculateFullMesh` result has `userCapacity` at least the resolved
target, `totalSwitches > 0` and `totalCables ≥ 0`. -/
theorem spec_C3 (config : NetworkConfig) (hn : 1 ≤ config.numUsers)
    (hradix : 2 ≤ config.radix) :
    ((calculateClos config).possible = true →
      (config.numUsers : ℤ) ≤ (calculateClos config).userCapacity ∧
      0 < (calculateClos config).totalSwitches ∧
      0 ≤ (calculateClos config).totalCables) ∧
    (∀ requiredUserPorts : Option ℕ,
      (calculateFullMesh config requiredUserPorts).possible = true →
      (meshTarget config requiredUserPorts : ℤ) ≤
        (calculateFullMesh config requiredUserPorts).userCapacity ∧
      0 < (calculateFullMesh config requiredUserPorts).totalSwitches ∧
      0 ≤ (calculateFullMesh config requiredUserPorts).totalCables) := by
  have hu : closUserPortsPerLeaf config ≠ 0 := by
    show config.radix / 2 ≠ 0
    omega
  have hu1 : 1 ≤ closUserPortsPerLeaf config := Nat.one_le_iff_ne_zero.mpr hu
  have hcap : config.numUsers ≤
      closNumLeafs config * closUserPortsPerLeaf config := by
    unfold closNumLeafs
    exact le_ceilDivNat_mul hu1
  have hL1 : 1 ≤ closNumLeafs config := by
    unfold closNumLeafs
    exact ceilDivNat_pos hn hu1
  constructor
  · intro hp
    by_cases hL : closNumLeafs config ≤ config.radix
    · rw [calculateClos_2tier config hu hL]
      dsimp only
      refine ⟨by exact_mod_cast hcap, ?_, by positivity⟩
      have hpos : 0 < closNumLeafs config + closNumSpines config := by omega
      exact_mod_cast hpos
    · have hL' : config.radix < closNumLeafs config := not_le.mp hL
      by_cases hover : maxUsers3Tier config < (config.numUsers : ℚ)
      · rw [calculateClos_3tierOver config hu hL' hover] at hp
        exact absurd hp (by simp [infeasibleMetrics])
      · rw [calculateClos_3tier config hu hL' hover]
        dsimp only
        refine ⟨by exact_mod_cast hcap, ?_, by positivity⟩
        have hpos : 0 <
            closNumLeafs config + closNumLeafs config + closNumCore config := by
          omega
        exact_mod_cast hpos
  · intro requiredUserPorts hp
    obtain ⟨s, hse⟩ := calculateFullMesh_possible config requiredUserPorts hp
    obtain ⟨h2, _, hacc, _⟩ :=
      meshSearch_some config (meshTarget config requiredUserPorts) s hse
    rw [calculateFullMesh_some config requiredUserPorts s hse]
    refine ⟨hacc.2, ?_, ?_⟩
    · show (0 : ℤ) < (s : ℤ)
      exact_mod_cast by omega
    · show (0 : ℤ) ≤ (s : ℤ) * ((s : ℤ) - 1) / 2 * linksPerPeer config s
      have hs0 : (0 : ℤ) ≤ (s : ℤ) * ((s : ℤ) - 1) := by
        have : (2 : ℤ) ≤ (s : ℤ) := by exact_mod_cast h2
        nlinarith
      have hdiv : (0 : ℤ) ≤ (s : ℤ) * ((s : ℤ) - 1) / 2 :=
        Int.ediv_nonneg hs0 (by norm_num)
      have hl : (0 : ℤ) ≤ linksPerPeer config s :=
        le_trans zero_le_one (le_max_left 1 _)
      exact mul_nonneg hdiv hl

theorem spec_C3_witness :
    1 ≤ cfgClos64.numUsers ∧ 2 ≤ cfgClos64.radix ∧
    ((calculateClos cfgClos64).possible = true →
      (cfgClos64.numUsers : ℤ) ≤ (calculateClos cfgClos64).userCapacity ∧
      0 < (calculateClos cfgClos64).totalSwitches ∧
      0 ≤ (calculateClos cfgClos64).totalCables) ∧
    (∀ requiredUserPorts : Option ℕ,
      (calculateFullMesh cfgClos64 requiredUserPorts).possible = true →
      (meshTarget cfgClos64 requiredUserPorts : ℤ) ≤
        (calculateFullMesh cfgClos64 requiredUserPorts).userCapacity ∧
      0 < (calculateFullMesh cfgClos64 requiredUserPorts).totalSwitches ∧
      0 ≤ (calculateFullMesh cfgClos64 requiredUserPorts).totalCables) :=
  ⟨by decide, by decide, (spec_C3 cfgClos64 (by decide) (by decide)).1,
    (spec_C3 cfgClos64 (by decide) (by decide)).2⟩

/-- C4: both calculators are total; every infeasible outcome is a returned
record with `possible = false`, all numeric fields zero, empty
`switchConfig` and a non-empty `details` reason; in particular `radix = 1`
makes `calculateClos` infeasible with all counts zero. -/
theorem spec_C4 :
    (∀ config : NetworkConfig, (calculateClos config).possible = false →
      (calculateClos config).totalSwitches = 0 ∧
      (calculateClos config).totalCables = 0 ∧
      (calculateClos config).avgHops = 0 ∧
      (calculateClos config).maxHops = 0 ∧
      (calculateClos config).totalPower = 0 ∧
      (calculateClos config).userCapacity = 0 ∧
      (calculateClos config).switchConfig = emptySwitchConfig ∧
      (calculateClos config).details ≠ "") ∧
    (∀ (config : NetworkConfig) (requiredUserPorts : Option ℕ),
      (calculateFullMesh config requiredUserPorts).possible = false →
      (calculateFullMesh config requiredUserPorts).totalSwitches = 0 ∧
      (calculateFullMesh config requiredUserPorts).totalCables = 0 ∧
      (calculateFullMesh config requiredUserPorts).avgHops = 0 ∧
      (calculateFullMesh config requiredUserPorts).maxHops = 0 ∧
      (calculateFullMesh config requiredUserPorts).totalPower = 0 ∧
      (calculateFullMesh config requiredUserPorts).userCapacity = 0 ∧
      (calculateFullMesh config requiredUserPorts).switchConfig =
        emptySwitchConfig ∧
      (calculateFullMesh config requiredUserPorts).details ≠ "") ∧
    (∀ config : NetworkConfig, config.radix = 1 →
      (calculateClos config).possible = false ∧
      (calculateClos config).totalSwitches = 0 ∧
      (calculateClos config).totalCables = 0 ∧
      (calculateClos config).userCapacity = 0) := by
  refine ⟨?_, ?_, ?_⟩
  · intro config hp
    by_cases hu : closUserPortsPerLeaf config = 0
    · rw [calculateClos_radixSmall config hu]
      exact ⟨rfl, rfl, rfl, rfl, rfl, rfl, rfl, by decide⟩
    · by_cases hL : closNumLeafs config ≤ config.radix
      · rw [calculateClos_2tier config hu hL] at hp
        exact absurd hp (by simp)
      · have hL' : config.radix < closNumLeafs config := not_le.mp hL
        by_cases hover : maxUsers3Tier config < (config.numUsers : ℚ)
        · rw [calculateClos_3tierOver config hu hL' hover]
          refine ⟨rfl, rfl, rfl, rfl, rfl, rfl, rfl, ?_⟩
          exact append_ne_empty _ _ (append_ne_empty _ _ (by decide))
        · rw [calculateClos_3tier config hu hL' hover] at hp
          exact absurd hp (by simp)
  · intro config requiredUserPorts hp
    cases hse : meshSearch config (meshTarget config requiredUserPorts) with
    | some s =>
      rw [calculateFullMesh_some config requiredUserPorts s hse] at hp
      have hposs : (meshMetricsAt config s).possible = true := rfl
      rw [hposs] at hp
      exact Bool.noConfusion hp
    | none =>
      rw [calculateFullMesh_none config requiredUserPorts hse]
      refine ⟨rfl, rfl, rfl, rfl, rfl, rfl, rfl, ?_⟩
      exact append_ne_empty _ _ (append_ne_empty _ _ (append_ne_empty _ _
        (append_ne_empty _ _ (append_ne_empty _ _ (append_ne_empty _ _
          (by decide))))))
  · intro config h1
    have hu : closUserPortsPerLeaf config = 0 := by
      show config.radix / 2 = 0
      omega
    rw [calculateClos_radixSmall config hu]
    exact ⟨rfl, rfl, rfl, rfl⟩

theorem spec_C4_witness :
    (calculateClos cfgClos1).possible = false ∧
    (calculateFullMesh cfgClos1 none).possible = false ∧
    cfgClos1.radix = 1 ∧
    ((calculateClos cfgClos1).totalSwitches = 0 ∧
      (calculateClos cfgClos1).totalCables = 0 ∧
      (calculateClos cfgClos1).avgHops = 0 ∧
      (calculateClos cfgClos1).maxHops = 0 ∧
      (calculateClos cfgClos1).totalPower = 0 ∧
      (calculateClos cfgClos1).userCapacity = 0 ∧
      (calculateClos cfgClos1).switchConfig = emptySwitchConfig ∧
      (calculateClos cfgClos1).details ≠ "") ∧
    ((calculateFullMesh cfgClos1 none).totalSwitches = 0 ∧
      (calculateFullMesh cfgClos1 none).totalCables = 0 ∧
      (calculateFullMesh cfgClos1 none).avgHops = 0 ∧
      (calculateFullMesh cfgClos1 none).maxHops = 0 ∧
      (calculateFullMesh cfgClos1 none).totalPower = 0 ∧
      (calculateFullMesh cfgClos1 none).userCapacity = 0 ∧
      (calculateFullMesh cfgClos1 none).switchConfig = emptySwitchConfig ∧
      (calculateFullMesh cfgClos1 none).details ≠ "") ∧
    ((calculateClos cfgClos1).possible = false ∧
      (calculateClos cfgClos1).totalSwitches = 0 ∧
      (calculateClos cfgClos1).totalCables = 0 ∧
      (calculateClos cfgClos1).userCapacity = 0) :=
  ⟨by decide, of_decide_eq_true (by with_unfolding_all rfl), by decide,
    spec_C4.1 cfgClos1 (by decide),
    spec_C4.2.1 cfgClos1 none (of_decide_eq_true (by with_unfolding_all rfl)),
    spec_C4.2.2 cfgClos1 (by decide)⟩

/-- C5: on the 3-tier branch (`numLeafs > radix`), exceeding the structural
ceiling `(radix/2)^2 * radix` yields `possible = false` with a
"Requires >3 Tiers" reason, and staying within it yields
`possible = true`; in particular `radix = 16`, `numUsers = 2048` is
infeasible (`2048 > 1024`). -/
theorem spec_C5 :
    (∀ config : NetworkConfig, closUserPortsPerLeaf config ≠ 0 →
      config.radix < closNumLeafs config →
      ((maxUsers3Tier config < (config.numUsers : ℚ) →
          (calculateClos config).possible = false ∧
          (calculateClos config).details =
            "Requires >3 Tiers. Max users " ++
              toString (maxUsers3Tier config) ++ ".") ∧
        ((config.numUsers : ℚ) ≤ maxUsers3Tier config →
          (calculateClos config).possible = true))) ∧
    (calculateClos cfgClos16).possible = false ∧
    (calculateClos cfgClos16).details =
      "Requires >3 Tiers. Max users " ++ toString (maxUsers3Tier cfgClos16)
        ++ "." := by
  refine ⟨?_, ?_, ?_⟩
  · intro config hu hL
    constructor
    · intro hover
      rw [calculateClos_3tierOver config hu hL hover]
      exact ⟨rfl, rfl⟩
    · intro hok
      rw [calculateClos_3tier config hu hL (not_lt.mpr hok)]
  · exact of_decide_eq_true (by with_unfolding_all rfl)
  · exact of_decide_eq_true (by with_unfolding_all rfl)

theorem spec_C5_witness :
    closUserPortsPerLeaf cfgClos16 ≠ 0 ∧
    cfgClos16.radix < closNumLeafs cfgClos16 ∧
    maxUsers3Tier cfgClos16 < (cfgClos16.numUsers : ℚ) ∧
    ((calculateClos cfgClos16).possible = false ∧
      (calculateClos cfgClos16).details =
        "Requires >3 Tiers. Max users " ++ toString (maxUsers3Tier cfgClos16)
          ++ ".") :=
  ⟨by decide, by decide, of_decide_eq_true (by with_unfolding_all rfl),
    (spec_C5.1 cfgClos16 (by decide) (by decide)).1
      (of_decide_eq_true (by with_unfolding_all rfl))⟩

/-- C6: for `radix = 64`, `numUsers = 1024` the 2-tier result has 32 user
ports per leaf, 32 leaves, 16 spines, 48 switches, 1024 fabric cables,
`avgHops = 2`, `maxHops = 2`, `possible = true`; in general whenever
`numLeafs ≤ radix` the 2-tier path is taken with
`spines = ceil(numLeafs * userPortsPerLeaf / radix)`,
`totalSwitches = leafs + spines` and
`totalCables = numLeafs * userPortsPerLeaf`. -/
theorem spec_C6 :
    ((calculateClos cfgClos64).switchConfig.userPortsPerSwitch = some 32 ∧
      (calculateClos cfgClos64).switchConfig.leafs = some 32 ∧
      (calculateClos cfgClos64).switchConfig.spines = some 16 ∧
      (calculateClos cfgClos64).totalSwitches = 48 ∧
      (calculateClos cfgClos64).totalCables = 1024 ∧
      (calculateClos cfgClos64).avgHops = 2 ∧
      (calculateClos cfgClos64).maxHops = 2 ∧
      (calculateClos cfgClos64).possible = true) ∧
    (∀ config : NetworkConfig, closUserPortsPerLeaf config ≠ 0 →
      closNumLeafs config ≤ config.radix →
      (calculateClos config).possible = true ∧
      (calculateClos config).switchConfig.leafs =
        some (closNumLeafs config : ℤ) ∧
      (calculateClos config).switchConfig.spines =
        some (closNumSpines config : ℤ) ∧
      (calculateClos config).totalSwitches =
        ((closNumLeafs config + closNumSpines config : ℕ) : ℤ) ∧
      (calculateClos config).totalCables =
        ((closNumLeafs config * closUserPortsPerLeaf config : ℕ) : ℤ)) := by
  constructor
  · exact of_decide_eq_true (by with_unfolding_all rfl)
  · intro config hu hL
    rw [calculateClos_2tier config hu hL]
    exact ⟨rfl, rfl, rfl, rfl, rfl⟩

theorem spec_C6_witness :
    closUserPortsPerLeaf cfgClos64 ≠ 0 ∧
    closNumLeafs cfgClos64 ≤ cfgClos64.radix ∧
    ((calculateClos cfgClos64).possible = true ∧
      (calculateClos cfgClos64).switchConfig.leafs =
        some (closNumLeafs cfgClos64 : ℤ) ∧
      (calculateClos cfgClos64).switchConfig.spines =
        some (closNumSpines cfgClos64 : ℤ) ∧
      (calculateClos cfgClos64).totalSwitches =
        ((closNumLeafs cfgClos64 + closNumSpines cfgClos64 : ℕ) : ℤ) ∧
      (calculateClos cfgClos64).totalCables =
        ((closNumLeafs cfgClos64 * closUserPortsPerLeaf cfgClos64 : ℕ) : ℤ)) :=
  ⟨by decide, by decide, spec_C6.2 cfgClos64 (by decide) (by decide)⟩

/-- C7: for fixed radix, increasing `numUsers` never decreases
`userCapacity` or `totalSwitches` across feasible Clos results, including
across the 2-tier/3-tier transition. -/
theorem spec_C7 (config : NetworkConfig) (n n' : ℕ) (hn : 1 ≤ n)
    (hnn : n ≤ n') (hradix : 2 ≤ config.radix)
    (hp : (calculateClos { config with numUsers := n }).possible = true)
    (hp' : (calculateClos { config with numUsers := n' }).possible = true) :
    (calculateClos { config with numUsers := n }).userCapacity ≤
      (calculateClos { config with numUsers := n' }).userCapacity ∧
    (calculateClos { config with numUsers := n }).totalSwitches ≤
      (calculateClos { config with numUsers := n' }).totalSwitches := by
  have hu : closUserPortsPerLeaf { config with numUsers := n } ≠ 0 := by
    show config.radix / 2 ≠ 0
    omega
  have hu' : closUserPortsPerLeaf { config with numUsers := n' } ≠ 0 := hu
  have hmono : closNumLeafs { config with numUsers := n } ≤
      closNumLeafs { config with numUsers := n' } := by
    show ceilDivNat n (config.radix / 2) ≤ ceilDivNat n' (config.radix / 2)
    exact ceilDivNat_mono _ hnn
  by_cases hb : closNumLeafs { config with numUsers := n' } ≤ config.radix
  · -- both results are 2-tier
    have hb1 : closNumLeafs { config with numUsers := n } ≤ config.radix :=
      le_trans hmono hb
    rw [calculateClos_2tier _ hu hb1, calculateClos_2tier _ hu' hb]
    dsimp only
    constructor
    · exact_mod_cast Nat.mul_le_mul_right _ hmono
    · have hS : closNumSpines { config with numUsers := n } ≤
          closNumSpines { config with numUsers := n' } := by
        unfold closNumSpines
        exact ceilDivNat_mono _ (Nat.mul_le_mul_right _ hmono)
      exact_mod_cast Nat.add_le_add hmono hS
  · have hb2 : ({ config with numUsers := n' } : NetworkConfig).radix <
        closNumLeafs { config with numUsers := n' } := not_le.mp hb
    by_cases hover' : maxUsers3Tier { config with numUsers := n' } <
        ((({ config with numUsers := n' } : NetworkConfig).numUsers : ℚ))
    · rw [calculateClos_3tierOver _ hu' hb2 hover'] at hp'
      exact absurd hp' (by simp [infeasibleMetrics])
    · by_cases hbL : closNumLeafs { config with numUsers := n } ≤ config.radix
      · -- first result 2-tier, second 3-tier
        rw [calculateClos_2tier _ hu hbL,
          calculateClos_3tier _ hu' hb2 hover']
        dsimp only
        constructor
        · exact_mod_cast Nat.mul_le_mul_right _ hmono
        · have hS : closNumSpines { config with numUsers := n } ≤
              closNumCore { config with numUsers := n' } := by
            unfold closNumSpines closNumCore
            exact ceilDivNat_mono _ (Nat.mul_le_mul_right _ hmono)
          have hsum : closNumLeafs { config with numUsers := n } +
              closNumSpines { config with numUsers := n } ≤
              closNumLeafs { config with numUsers := n' } +
              closNumLeafs { config with numUsers := n' } +
              closNumCore { config with numUsers := n' } := by
            omega
          exact_mod_cast hsum
      · -- both results are 3-tier
        have hbL2 : ({ config with numUsers := n } : NetworkConfig).radix <
            closNumLeafs { config with numUsers := n } := not_le.mp hbL
        by_cases hover : maxUsers3Tier { config with numUsers := n } <
            ((({ config with numUsers := n } : NetworkConfig).numUsers : ℚ))
        · rw [calculateClos_3tierOver _ hu hbL2 hover] at hp
          exact absurd hp (by simp [infeasibleMetrics])
        · rw [calculateClos_3tier _ hu hbL2 hover,
            calculateClos_3tier _ hu' hb2 hover']
          dsimp only
          constructor
          · exact_mod_cast Nat.mul_le_mul_right _ hmono
          · have hC : closNumCore { config with numUsers := n } ≤
                closNumCore { config with numUsers := n' } := by
              unfold closNumCore
              exact ceilDivNat_mono _ (Nat.mul_le_mul_right _ hmono)
            have hsum : closNumLeafs { config with numUsers := n } +
                closNumLeafs { config with numUsers := n } +
                closNumCore { config with numUsers := n } ≤
                closNumLeafs { config with numUsers := n' } +
                closNumLeafs { config with numUsers := n' } +
                closNumCore { config with numUsers := n' } := by
              omega
            exact_mod_cast hsum

theorem spec_C7_witness :
    1 ≤ 1024 ∧ (1024 : ℕ) ≤ 2048 ∧ 2 ≤ cfgClos64.radix ∧
    (calculateClos { cfgClos64 with numUsers := 1024 }).possible = true ∧
    (calculateClos { cfgClos64 with numUsers := 2048 }).possible = true ∧
    ((calculateClos { cfgClos64 with numUsers := 1024 }).userCapacity ≤
        (calculateClos { cfgClos64 with numUsers := 2048 }).userCapacity ∧
      (calculateClos { cfgClos64 with numUsers := 1024 }).totalSwitches ≤
        (calculateClos { cfgClos64 with numUsers := 2048 }).totalSwitches) :=
  ⟨by decide, by decide, by decide, by decide, by decide,
    spec_C7 cfgClos64 1024 2048 (by decide) (by decide) (by decide)
      (by decide) (by decide)⟩

/-- C8: every feasible 3-tier result has
`avgHops = round2(((leavesPerPod−1)*2 + (numLeafs−leavesPerPod)*4) / (numLeafs−1))`
with `leavesPerPod = floor(radix/2)` (natural subtraction giving the
`max(0, ·)` clamps) and `maxHops = 4`; every feasible 2-tier result has
`avgHops = 2` and `maxHops = 2`. -/
theorem spec_C8 :
    (∀ config : NetworkConfig, closUserPortsPerLeaf config ≠ 0 →
      config.radix < closNumLeafs config →
      (calculateClos config).possible = true →
      (calculateClos config).avgHops =
        round2 ((((config.radix / 2 - 1 : ℕ) : ℚ) * 2 +
            ((closNumLeafs config - config.radix / 2 : ℕ) : ℚ) * 4) /
          ((closNumLeafs config : ℚ) - 1)) ∧
      (calculateClos config).maxHops = 4) ∧
    (∀ config : NetworkConfig, closUserPortsPerLeaf config ≠ 0 →
      closNumLeafs config ≤ config.radix →
      (calculateClos config).avgHops = 2 ∧
      (calculateClos config).maxHops = 2) := by
  constructor
  · intro config hu hL hp
    by_cases hover : maxUsers3Tier config < (config.numUsers : ℚ)
    · rw [calculateClos_3tierOver config hu hL hover] at hp
      exact absurd hp (by simp [infeasibleMetrics])
    · rw [calculateClos_3tier config hu hL hover]
      have hr2 : 2 ≤ config.radix := by
        by_contra h
        exact hu (by
          show config.radix / 2 = 0
          omega)
      have huL : config.radix / 2 ≤ closNumLeafs config := by
        have hd := Nat.div_le_self config.radix 2
        omega
      have h1L : 1 < closNumLeafs config := by omega
      refine ⟨?_, rfl⟩
      show round2 (closAvgHops3 (config.radix / 2) (closNumLeafs config)) = _
      rw [closAvgHops3_eq (config.radix / 2) (closNumLeafs config) huL h1L]
  · intro config hu hL
    rw [calculateClos_2tier config hu hL]
    exact ⟨round2_two, rfl⟩

theorem spec_C8_witness :
    (closUserPortsPerLeaf cfgClos16ok ≠ 0 ∧
      cfgClos16ok.radix < closNumLeafs cfgClos16ok ∧
      (calculateClos cfgClos16ok).possible = true ∧
      ((calculateClos cfgClos16ok).avgHops =
        round2 ((((cfgClos16ok.radix / 2 - 1 : ℕ) : ℚ) * 2 +
            ((closNumLeafs cfgClos16ok - cfgClos16ok.radix / 2 : ℕ) : ℚ) * 4) /
          ((closNumLeafs cfgClos16ok : ℚ) - 1)) ∧
        (calculateClos cfgClos16ok).maxHops = 4)) ∧
    (closUserPortsPerLeaf cfgClos64 ≠ 0 ∧
      closNumLeafs cfgClos64 ≤ cfgClos64.radix ∧
      ((calculateClos cfgClos64).avgHops = 2 ∧
        (calculateClos cfgClos64).maxHops = 2)) :=
  ⟨⟨by decide, by decide, of_decide_eq_true (by with_unfolding_all rfl),
      spec_C8.1 cfgClos16ok (by decide) (by decide)
        (of_decide_eq_true (by with_unfolding_all rfl))⟩,
    ⟨by decide, by decide, spec_C8.2 cfgClos64 (by decide) (by decide)⟩⟩
